import Mathlib

/-!
# Action dispatch of the applier (`hpx/runtime/applier/apply_implementations.hpp`)

A shallow embedding of the dispatch functions `apply_r`, `apply_l`, `apply`
and `apply_c` generated by the preprocessor iteration of
`apply_implementations.hpp`, and theorems about their routing behaviour.

Modelling conventions.

* The bound arguments `arg0 … arg(N-1)` of the arity-`N` instance are a
  list `args : List α` of length `N`; the body of every generated function is
  the same text for every `N`, so one definition over the list embeds all of
  them.  Which `N` the iteration generates is `generated_arities`.
* The effects on the external collaborators (resolver queries, submissions
  through `apply_helperN::call`, parcels given to `put_parcel`) are recorded,
  in program order, in a trace of `Event`s that is threaded through the calls.
* `BOOST_ASSERT(e)` depends on the build: where the assertion is compiled in
  and `e` is false, the call does not return (`ret = none`) and nothing after
  the assertion is executed; where `NDEBUG` or `BOOST_DISABLE_ASSERTS` is
  defined the macro expands to nothing.  The build is the field
  `asserts_disabled` of `Runtime`.
* Reference parameters that the code writes to (`naming::address& addr`,
  `naming::full_address& fa`) are returned in the field `ref`.
-/

namespace hpx

/-! ## Data model -/

namespace naming

/-- Global identifier `naming::id_type`: only copied and compared here. -/
abbrev id_type := Nat

/-- Resolved address `naming::address`: the fields the dispatch code reads
and writes, the component-type tag `type_` and the local handle `address_`. -/
structure address where
  type_ : Int
  address_ : Nat
deriving DecidableEq, Repr

/-- Pre-paired GID and address `naming::full_address`, read through `cgid()`,
`caddress()` and `address()`. -/
structure full_address where
  gid_ : id_type
  address_ : address
deriving DecidableEq, Repr

end naming

open naming

namespace actions

/-- The template parameter `Action`: which operation it is and the component
type it declares as `Action::component_type` (a C++ type, named by an index). -/
structure Action where
  id : Nat
  component_type : Nat
deriving DecidableEq, Repr

/-- An action object `new Action(arg0, …, arg(N-1))`: the action bound to its
arguments in order. -/
structure bound_action (α : Type) where
  action : Action
  args : List α
deriving DecidableEq, Repr

/-- Continuation object `actions::continuation`, built from a GID
(`new actions::continuation(contgid)`) or from a full address
(`new actions::continuation(contaddr)`). -/
inductive continuation where
  | of_gid (contgid : id_type)
  | of_full_address (contaddr : full_address)
deriving DecidableEq, Repr

/-- The wrapper `actions::continuation_type cont(c)` around a raw
`actions::continuation*`: empty when the pointer is null. -/
abbrev continuation_type := Option continuation

end actions

open actions

namespace parcelset

/-- Parcel `parcelset::parcel`: destination GID, the owned action, the
continuation (empty when the two-argument constructor was used) and the cached
destination address (`none` until `set_destination_addr` is called). -/
structure parcel (α : Type) where
  destination_id : id_type
  action : bound_action α
  continuation : continuation_type
  destination_addr : Option address
deriving DecidableEq, Repr

/-- Constructor `parcel p(gid, new Action(args...))`. -/
def parcel.mk2 {α : Type} (gid : id_type) (act : bound_action α) : parcel α :=
  { destination_id := gid, action := act, continuation := none, destination_addr := none }

/-- Constructor `parcel p(gid, new Action(args...), cont)`. -/
def parcel.mk3 {α : Type} (gid : id_type) (act : bound_action α) (cont : continuation_type) :
    parcel α :=
  { destination_id := gid, action := act, continuation := cont, destination_addr := none }

/-- Member `p.set_destination_addr(addr)`. -/
def parcel.set_destination_addr {α : Type} (p : parcel α) (addr : address) : parcel α :=
  { p with destination_addr := some addr }

end parcelset

open parcelset

namespace applier

/-- The external collaborators the dispatch code calls, taken as parameters:
the two `address_is_local` overloads of the applier, and from `components` the
constant `component_invalid`, `get_component_type<T>()` and
`types_are_compatible`; and the build configuration that decides what
`BOOST_ASSERT` expands to. -/
structure Runtime where
  /-- Holds when `BOOST_ASSERT` expands to nothing (`NDEBUG` or
  `BOOST_DISABLE_ASSERTS` is defined). -/
  asserts_disabled : Bool
  /-- Models `address_is_local(gid, addr)`: the returned flag and the value
  left in the freshly constructed `addr`. -/
  address_is_local : id_type → Bool × address
  /-- Models `address_is_local(fa)`: the locality check on a full address. -/
  address_is_local_fa : full_address → Bool
  component_invalid : Int
  get_component_type : Nat → Int
  types_are_compatible : Int → Int → Bool

/-- One observable effect of the dispatch code on its collaborators. -/
inductive Event (α : Type) where
  /-- A call `address_is_local(gid, addr)`. -/
  | resolve (gid : id_type)
  /-- A call `address_is_local(fa)`. -/
  | locality_check (fa : full_address)
  /-- A call `apply_helperN<Action, …>::call(lva, args...)`. -/
  | call (lva : Nat) (act : Action) (args : List α)
  /-- A call `apply_helperN<Action, …>::call(cont, lva, args...)`. -/
  | call_cont (cont : continuation_type) (lva : Nat) (act : Action) (args : List α)
  /-- A call `get_parcel_handler().put_parcel(p)`. -/
  | put_parcel (p : parcel α)
deriving DecidableEq, Repr

/-- Outcome of a dispatch call: the returned `bool` (`none` when a compiled-in
assertion failed and the call did not return) and the trace after the call. -/
structure Result (α : Type) where
  ret : Option Bool
  trace : List (Event α)
deriving DecidableEq, Repr

/-- Outcome of a dispatch call that takes a non-const reference of type `β`:
as `Result`, with the value the referenced object holds after the call. -/
structure RefResult (β α : Type) where
  ret : Option Bool
  ref : β
  trace : List (Event α)
deriving DecidableEq, Repr

/-! ## The generated functions -/

/-- The two statements
`if (components::component_invalid == addr.type_) addr.type_ = get_component_type<…>();`
shared by both `apply_r` overloads. -/
def fill_type (rt : Runtime) (A : Action) (addr : address) : address :=
  if rt.component_invalid = addr.type_ then
    { addr with type_ := rt.get_component_type A.component_type }
  else addr

/-- Embeds `apply_r(addr, gid, args...)`, lines 32-46. -/
def apply_r {α : Type} (rt : Runtime) (A : Action) (addr : address) (gid : id_type)
    (args : List α) (w : List (Event α)) : RefResult address α :=
  let p := parcel.mk2 gid ⟨A, args⟩
  let addr := fill_type rt A addr
  let p := p.set_destination_addr addr
  { ret := some false, ref := addr, trace := w ++ [Event.put_parcel p] }

/-- Embeds `BOOST_ASSERT(e)`: whether execution continues past the assertion.
It always does where the macro expands to nothing, and otherwise only when
`e` holds. -/
def BOOST_ASSERT (rt : Runtime) (e : Bool) : Bool :=
  rt.asserts_disabled || e

/-- Embeds `apply_l(addr, args...)`, lines 48-58. -/
def apply_l {α : Type} (rt : Runtime) (A : Action) (addr : address)
    (args : List α) (w : List (Event α)) : Result α :=
  if BOOST_ASSERT rt
      (rt.types_are_compatible addr.type_ (rt.get_component_type A.component_type)) then
    { ret := some true, trace := w ++ [Event.call addr.address_ A args] }
  else
    { ret := none, trace := w }

/-- Embeds `apply(gid, args...)`, lines 60-71. -/
def apply {α : Type} (rt : Runtime) (A : Action) (gid : id_type)
    (args : List α) (w : List (Event α)) : Result α :=
  let r := rt.address_is_local gid
  let w := w ++ [Event.resolve gid]
  if r.1 then apply_l rt A r.2 args w
  else
    let o := apply_r rt A r.2 gid args w
    { ret := o.ret, trace := o.trace }

/-- Embeds `apply(fa, args...)`, lines 73-83. -/
def apply_fa {α : Type} (rt : Runtime) (A : Action) (fa : full_address)
    (args : List α) (w : List (Event α)) : RefResult full_address α :=
  let b := rt.address_is_local_fa fa
  let w := w ++ [Event.locality_check fa]
  if b then
    let o := apply_l rt A fa.address_ args w
    { ret := o.ret, ref := fa, trace := o.trace }
  else
    let o := apply_r rt A fa.address_ fa.gid_ args w
    { ret := o.ret, ref := { fa with address_ := o.ref }, trace := o.trace }

/-- Embeds `apply_r(addr, c, gid, args...)`, lines 86-103. -/
def apply_r_cont {α : Type} (rt : Runtime) (A : Action) (addr : address)
    (c : Option continuation) (gid : id_type)
    (args : List α) (w : List (Event α)) : RefResult address α :=
  let cont : continuation_type := c
  let p := parcel.mk3 gid ⟨A, args⟩ cont
  let addr := fill_type rt A addr
  let p := p.set_destination_addr addr
  { ret := some false, ref := addr, trace := w ++ [Event.put_parcel p] }

/-- Embeds `apply_l(c, addr, args...)`, lines 105-116. -/
def apply_l_cont {α : Type} (rt : Runtime) (A : Action) (c : Option continuation)
    (addr : address) (args : List α) (w : List (Event α)) : Result α :=
  if BOOST_ASSERT rt
      (rt.types_are_compatible addr.type_ (rt.get_component_type A.component_type)) then
    let cont : continuation_type := c
    { ret := some true, trace := w ++ [Event.call_cont cont addr.address_ A args] }
  else
    { ret := none, trace := w }

/-- Embeds `apply(c, gid, args...)`, lines 118-129. -/
def apply_cont {α : Type} (rt : Runtime) (A : Action) (c : Option continuation)
    (gid : id_type) (args : List α) (w : List (Event α)) : Result α :=
  let r := rt.address_is_local gid
  let w := w ++ [Event.resolve gid]
  if r.1 then apply_l_cont rt A c r.2 args w
  else
    let o := apply_r_cont rt A r.2 c gid args w
    { ret := o.ret, trace := o.trace }

/-- Embeds `apply(c, fa, args...)`, lines 131-141. -/
def apply_cont_fa {α : Type} (rt : Runtime) (A : Action) (c : Option continuation)
    (fa : full_address) (args : List α) (w : List (Event α)) : RefResult full_address α :=
  let b := rt.address_is_local_fa fa
  let w := w ++ [Event.locality_check fa]
  if b then
    let o := apply_l_cont rt A c fa.address_ args w
    { ret := o.ret, ref := fa, trace := o.trace }
  else
    let o := apply_r_cont rt A fa.address_ c fa.gid_ args w
    { ret := o.ret, ref := { fa with address_ := o.ref }, trace := o.trace }

/-- Embeds `apply_c(addr, contgid, gid, args...)`, lines 143-150. -/
def apply_c_addr_gid {α : Type} (rt : Runtime) (A : Action) (addr : address)
    (contgid : id_type) (gid : id_type) (args : List α) (w : List (Event α)) :
    RefResult address α :=
  apply_r_cont rt A addr (some (continuation.of_gid contgid)) gid args w

/-- Embeds `apply_c(addr, contaddr, gid, args...)`, lines 152-159. -/
def apply_c_addr_fa {α : Type} (rt : Runtime) (A : Action) (addr : address)
    (contaddr : full_address) (gid : id_type) (args : List α) (w : List (Event α)) :
    RefResult address α :=
  apply_r_cont rt A addr (some (continuation.of_full_address contaddr)) gid args w

/-- Embeds `apply_c(contgid, gid, args...)`, lines 161-167. -/
def apply_c_gid {α : Type} (rt : Runtime) (A : Action) (contgid : id_type)
    (gid : id_type) (args : List α) (w : List (Event α)) : Result α :=
  apply_cont rt A (some (continuation.of_gid contgid)) gid args w

/-- Embeds `apply_c(contaddr, gid, args...)`, lines 169-175. -/
def apply_c_fa {α : Type} (rt : Runtime) (A : Action) (contaddr : full_address)
    (gid : id_type) (args : List α) (w : List (Event α)) : Result α :=
  apply_cont rt A (some (continuation.of_full_address contaddr)) gid args w

/-! ## Observations on a trace -/

/-- Holds for the local submissions, the two `apply_helperN::call` forms. -/
def Event.is_submission {α : Type} : Event α → Bool
  | Event.call _ _ _ => true
  | Event.call_cont _ _ _ _ => true
  | _ => false

/-- The local submissions of a trace, in order. -/
def submissions {α : Type} (w : List (Event α)) : List (Event α) :=
  w.filter Event.is_submission

/-- The parcel of a `put_parcel` event. -/
def Event.parcel? {α : Type} : Event α → Option (parcel α)
  | Event.put_parcel p => some p
  | _ => none

/-- The parcels handed to the transport in a trace, in order. -/
def parcels {α : Type} (w : List (Event α)) : List (parcel α) :=
  w.filterMap Event.parcel?

/-- The GID of an `address_is_local(gid, addr)` event. -/
def Event.resolved? {α : Type} : Event α → Option id_type
  | Event.resolve gid => some gid
  | _ => none

/-- The GIDs resolved in a trace, in order. -/
def resolutions {α : Type} (w : List (Event α)) : List id_type :=
  w.filterMap Event.resolved?

/-- Holds when the continuation `c` is attached to the event: passed to the
local call, or stored in the parcel given to the transport. -/
def Event.carries {α : Type} (c : continuation) : Event α → Bool
  | Event.call_cont cont _ _ _ => decide (cont = some c)
  | Event.put_parcel p => decide (p.continuation = some c)
  | _ => false

/-- The events of a trace to which the continuation `c` is attached. -/
def carriers {α : Type} (c : continuation) (w : List (Event α)) : List (Event α) :=
  w.filter (Event.carries c)

/-- The routing decision visible in an event, with the bound arguments left
out: what was called and on which handle, GID, address and continuation. -/
def Event.route {α : Type} : Event α → Event Unit
  | Event.resolve gid => Event.resolve gid
  | Event.locality_check fa => Event.locality_check fa
  | Event.call lva act _ => Event.call lva act []
  | Event.call_cont cont lva act _ => Event.call_cont cont lva act []
  | Event.put_parcel p =>
      Event.put_parcel
        { destination_id := p.destination_id, action := ⟨p.action.action, []⟩,
          continuation := p.continuation, destination_addr := p.destination_addr }

/-- The routing of an outcome: the returned value and the routing decisions of
its trace. -/
def Result.route {α : Type} (r : Result α) : Option Bool × List (Event Unit) :=
  (r.ret, r.trace.map Event.route)

/-- The routing of an outcome with a reference parameter: the returned value,
the value left in the reference and the routing decisions of the trace. -/
def RefResult.route {β α : Type} (r : RefResult β α) : Option Bool × β × List (Event Unit) :=
  (r.ret, r.ref, r.trace.map Event.route)

/-! ## Generated arities -/

/-- A runtime for examples, built with assertions compiled in: GIDs below 100 are local to a component of type 1
at handle `gid + 1000`; GIDs below 200 are remote with type 1 known; all other
GIDs are remote with the type tag unset. -/
def rt0 : Runtime where
  asserts_disabled := false
  address_is_local := fun g =>
    if g < 100 then (true, ⟨1, g + 1000⟩)
    else if g < 200 then (false, ⟨1, g⟩)
    else (false, ⟨-1, g⟩)
  address_is_local_fa := fun fa => decide (fa.gid_ < 100)
  component_invalid := -1
  get_component_type := fun c => (c : Int)
  types_are_compatible := fun a b => a == -1 || b == -1 || a == b

/-- The example runtime built with `NDEBUG`: `BOOST_ASSERT` expands to
nothing. -/
def rt0_ndebug : Runtime := { rt0 with asserts_disabled := true }

/-- An action declared on component type 1. -/
def Echo : Action := ⟨0, 1⟩

/-- An action declared on component type 2. -/
def Other : Action := ⟨1, 2⟩

/-! ## Auxiliary lemmas -/

theorem submissions_append {α : Type} (u v : List (Event α)) :
    submissions (u ++ v) = submissions u ++ submissions v := by
  simp [submissions]

theorem parcels_append {α : Type} (u v : List (Event α)) :
    parcels (u ++ v) = parcels u ++ parcels v := by
  simp [parcels]

theorem resolutions_append {α : Type} (u v : List (Event α)) :
    resolutions (u ++ v) = resolutions u ++ resolutions v := by
  simp [resolutions]

theorem carriers_append {α : Type} (c : continuation) (u v : List (Event α)) :
    carriers c (u ++ v) = carriers c u ++ carriers c v := by
  simp [carriers]

/-- Closed form of `apply_l`'s return value. -/
theorem apply_l_ret {α : Type} (rt : Runtime) (A : Action) (addr : address)
    (args : List α) (w : List (Event α)) :
    (apply_l rt A addr args w).ret =
      if BOOST_ASSERT rt
        (rt.types_are_compatible addr.type_ (rt.get_component_type A.component_type))
      then some true else none := by
  unfold apply_l; split <;> rfl

/-- Closed form of the return value of `apply_l` with a continuation. -/
theorem apply_l_cont_ret {α : Type} (rt : Runtime) (A : Action) (c : Option continuation)
    (addr : address) (args : List α) (w : List (Event α)) :
    (apply_l_cont rt A c addr args w).ret =
      if BOOST_ASSERT rt
        (rt.types_are_compatible addr.type_ (rt.get_component_type A.component_type))
      then some true else none := by
  unfold apply_l_cont; split <;> rfl

/-! ## Routing of `apply` on a GID -/

/-- C1 (as amended): when the resolver reports `gid` local with an address
whose component-type tag is compatible with the action's declared component
type, `apply<Action>(gid, args...)` returns `true`, performs exactly one local
submission, bound to `args` in order and made on the handle of the resolved
address, and hands no parcel to the transport. -/
theorem apply_local_submits {α : Type} (rt : Runtime) (A : Action) (gid : id_type)
    (args : List α) (w : List (Event α)) (addr : address)
    (hloc : rt.address_is_local gid = (true, addr))
    (hcompat : rt.types_are_compatible addr.type_
      (rt.get_component_type A.component_type) = true) :
    (apply rt A gid args w).ret = some true ∧
    (apply rt A gid args w).trace
      = w ++ [Event.resolve gid, Event.call addr.address_ A args] ∧
    submissions (apply rt A gid args w).trace
      = submissions w ++ [Event.call addr.address_ A args] ∧
    parcels (apply rt A gid args w).trace = parcels w := by
  have h : apply rt A gid args w
      = ⟨some true, w ++ [Event.resolve gid, Event.call addr.address_ A args]⟩ := by
    simp [apply, apply_l, BOOST_ASSERT, hloc, hcompat]
  rw [h]
  refine ⟨rfl, rfl, ?_, ?_⟩
  · simp [submissions_append, submissions, Event.is_submission]
  · simp [parcels_append, parcels, Event.parcel?]

/-- Witness for C1 (as amended): `apply<Echo>(7, 42)` on the example runtime. -/
theorem apply_local_submits_witness :
    (apply rt0 Echo 7 [(42 : Int)] []).ret = some true ∧
    (apply rt0 Echo 7 [(42 : Int)] []).trace
      = [] ++ [Event.resolve 7, Event.call 1007 Echo [42]] ∧
    submissions (apply rt0 Echo 7 [(42 : Int)] []).trace
      = submissions [] ++ [Event.call 1007 Echo [42]] ∧
    parcels (apply rt0 Echo 7 [(42 : Int)] []).trace = parcels [] :=
  apply_local_submits rt0 Echo 7 [42] [] ⟨1, 1007⟩ (by decide) (by decide)

/-- C1 fails as stated: in a build with assertions compiled in, the resolver
reports GID 7 local, with a component of type 1, and `apply<Other>(7, 42)`,
whose action is declared on type 2, fails the assertion of `apply_l`: it does
not return and submits nothing. -/
theorem apply_local_counterexample :
    (rt0.address_is_local 7).1 = true ∧
    (apply rt0 Other 7 [(42 : Int)] []).ret = none ∧
    submissions (apply rt0 Other 7 [(42 : Int)] []).trace = [] := by
  decide

/-- C2: when the resolver reports `gid` non-local, `apply<Action>(gid, args...)`
returns `false`, hands exactly one parcel to the transport, with destination
`gid`, a new action bound to `args` and no continuation, and performs no local
submission. -/
theorem apply_remote_sends {α : Type} (rt : Runtime) (A : Action) (gid : id_type)
    (args : List α) (w : List (Event α)) (addr : address)
    (hrem : rt.address_is_local gid = (false, addr)) :
    (apply rt A gid args w).ret = some false ∧
    (apply rt A gid args w).trace
      = w ++ [Event.resolve gid,
              Event.put_parcel ⟨gid, ⟨A, args⟩, none, some (fill_type rt A addr)⟩] ∧
    parcels (apply rt A gid args w).trace
      = parcels w ++ [⟨gid, ⟨A, args⟩, none, some (fill_type rt A addr)⟩] ∧
    submissions (apply rt A gid args w).trace = submissions w := by
  have h : apply rt A gid args w
      = ⟨some false, w ++ [Event.resolve gid,
          Event.put_parcel ⟨gid, ⟨A, args⟩, none, some (fill_type rt A addr)⟩]⟩ := by
    simp [apply, apply_r, hrem, parcel.mk2, parcel.set_destination_addr]
  rw [h]
  refine ⟨rfl, rfl, ?_, ?_⟩
  · simp [parcels_append, parcels, Event.parcel?]
  · simp [submissions_append, submissions, Event.is_submission]

/-- Witness for C2: `apply<Echo>(150, 42)` on the example runtime. -/
theorem apply_remote_sends_witness :
    (apply rt0 Echo 150 [(42 : Int)] []).ret = some false ∧
    (apply rt0 Echo 150 [(42 : Int)] []).trace
      = [] ++ [Event.resolve 150,
              Event.put_parcel ⟨150, ⟨Echo, [42]⟩, none, some (fill_type rt0 Echo ⟨1, 150⟩)⟩] ∧
    parcels (apply rt0 Echo 150 [(42 : Int)] []).trace
      = parcels [] ++ [⟨150, ⟨Echo, [42]⟩, none, some (fill_type rt0 Echo ⟨1, 150⟩)⟩] ∧
    submissions (apply rt0 Echo 150 [(42 : Int)] []).trace = submissions [] :=
  apply_remote_sends rt0 Echo 150 [42] [] ⟨1, 150⟩ (by decide)

/-! ## Routing of `apply` with a continuation -/

/-- C3 (as amended): for every continuation `c`, the continuation-bearing
`apply<Action>(c, gid, args...)` returns, in every case, what the
continuation-free `apply` returns; when the resolver reports `gid` local with
an address whose tag is compatible with the action's component type, it
returns `true` with one local submission that carries `c`; when the resolver
reports `gid` non-local it returns `false` with one parcel that carries `c`;
and in both of these cases `c` is attached to exactly one new event. -/
theorem apply_cont_routes {α : Type} (rt : Runtime) (A : Action) (c : continuation)
    (gid : id_type) (args : List α) (w : List (Event α)) :
    (apply_cont rt A (some c) gid args w).ret = (apply rt A gid args w).ret ∧
    ((rt.address_is_local gid).1 = true →
      rt.types_are_compatible (rt.address_is_local gid).2.type_
        (rt.get_component_type A.component_type) = true →
      apply_cont rt A (some c) gid args w
        = ⟨some true, w ++ [Event.resolve gid,
            Event.call_cont (some c) (rt.address_is_local gid).2.address_ A args]⟩ ∧
      (apply rt A gid args w).ret = some true ∧
      parcels (apply_cont rt A (some c) gid args w).trace = parcels w ∧
      (carriers c (apply_cont rt A (some c) gid args w).trace).length
        = (carriers c w).length + 1) ∧
    ((rt.address_is_local gid).1 = false →
      apply_cont rt A (some c) gid args w
        = ⟨some false, w ++ [Event.resolve gid,
            Event.put_parcel ⟨gid, ⟨A, args⟩, some c,
              some (fill_type rt A (rt.address_is_local gid).2)⟩]⟩ ∧
      (apply rt A gid args w).ret = some false ∧
      submissions (apply_cont rt A (some c) gid args w).trace = submissions w ∧
      (carriers c (apply_cont rt A (some c) gid args w).trace).length
        = (carriers c w).length + 1) := by
  rcases hr : rt.address_is_local gid with ⟨b, addr⟩
  refine ⟨?_, ?_, ?_⟩
  · cases b
    · simp [apply_cont, apply, apply_r, apply_r_cont, hr]
    · simp [apply_cont, apply, hr, apply_l_ret, apply_l_cont_ret]
  · intro hb hc
    simp only at hb hc
    simp [apply_cont, apply, apply_l, apply_l_cont, BOOST_ASSERT, hr, hb, hc,
      carriers_append, carriers, Event.carries, parcels_append, parcels, Event.parcel?]
  · intro hb
    simp only at hb
    simp [apply_cont, apply, apply_r, apply_r_cont, hr, hb, parcel.mk2, parcel.mk3,
      parcel.set_destination_addr, carriers_append, carriers, Event.carries,
      submissions_append, submissions, Event.is_submission]

/-- Witness for C3 (as amended): `apply<Echo>(c, 7, 42)` on the local GID 7 and
`apply<Echo>(c, 150, 42)` on the remote GID 150, with a continuation targeting
GID 9, on the example runtime. -/
theorem apply_cont_routes_witness :
    (apply_cont rt0 Other (some (continuation.of_gid 9)) 7 [(42 : Int)] []).ret
      = (apply rt0 Other 7 [(42 : Int)] []).ret ∧
    apply_cont rt0 Echo (some (continuation.of_gid 9)) 7 [(42 : Int)] []
      = ⟨some true, [] ++ [Event.resolve 7,
          Event.call_cont (some (continuation.of_gid 9))
            (rt0.address_is_local 7).2.address_ Echo [42]]⟩ ∧
    (carriers (continuation.of_gid 9)
      (apply_cont rt0 Echo (some (continuation.of_gid 9)) 7 [(42 : Int)] []).trace).length
      = (carriers (continuation.of_gid 9) ([] : List (Event Int))).length + 1 ∧
    (carriers (continuation.of_gid 9)
      (apply_cont rt0 Echo (some (continuation.of_gid 9)) 150 [(42 : Int)] []).trace).length
      = (carriers (continuation.of_gid 9) ([] : List (Event Int))).length + 1 :=
  have h7 := (apply_cont_routes rt0 Echo (continuation.of_gid 9) 7 [(42 : Int)] []).2.1
    (by decide) (by decide)
  have h150 := (apply_cont_routes rt0 Echo (continuation.of_gid 9) 150 [(42 : Int)] []).2.2
    (by decide)
  ⟨(apply_cont_routes rt0 Other (continuation.of_gid 9) 7 [(42 : Int)] []).1,
    h7.1, h7.2.2.2, h150.2.2.2⟩

/-- C3 fails as stated: in a build with assertions compiled in, GID 7 is local
with a component of type 1, and `apply<Other>(c, 7, 42)`, whose action is
declared on type 2, fails the assertion of `apply_l`: it does not return, and
`c` is attached neither to a local submission nor to a parcel. -/
theorem apply_cont_counterexample :
    (rt0.address_is_local 7).1 = true ∧
    (apply_cont rt0 Other (some (continuation.of_gid 9)) 7 [(42 : Int)] []).ret = none ∧
    carriers (continuation.of_gid 9)
      (apply_cont rt0 Other (some (continuation.of_gid 9)) 7 [(42 : Int)] []).trace = [] := by
  decide

/-! ## The assertion of the local dispatcher -/

/-- C4 fails as stated: in a build with `NDEBUG`, on an address of type 1 the
action `Other`, declared on the incompatible type 2, is dispatched by
`apply_l`, without and with a continuation: the call is submitted and `true`
is returned. -/
theorem apply_l_assertion_counterexample :
    rt0_ndebug.types_are_compatible (address.mk 1 1007).type_
      (rt0_ndebug.get_component_type Other.component_type) = false ∧
    apply_l rt0_ndebug Other ⟨1, 1007⟩ [(42 : Int)] []
      = ⟨some true, [Event.call 1007 Other [42]]⟩ ∧
    apply_l_cont rt0_ndebug Other (some (continuation.of_gid 9)) ⟨1, 1007⟩ [(42 : Int)] []
      = ⟨some true, [Event.call_cont (some (continuation.of_gid 9)) 1007 Other [42]]⟩ := by
  decide

/-- C4 (as amended): in a build with `BOOST_ASSERT` compiled in, on an address
whose component-type tag is not compatible with the action's declared
component type, `apply_l`, without and with a continuation, does not return
and leaves the trace as it was (no call is submitted); conversely, in every
build, whenever either returns, it returns `true`, and in a build with the
assertion compiled in the tag was compatible. -/
theorem apply_l_assertion {α : Type} (rt : Runtime) (A : Action) (c : Option continuation)
    (addr : address) (args : List α) (w : List (Event α)) :
    (rt.asserts_disabled = false →
      rt.types_are_compatible addr.type_ (rt.get_component_type A.component_type) = false →
      apply_l rt A addr args w = ⟨none, w⟩ ∧ apply_l_cont rt A c addr args w = ⟨none, w⟩) ∧
    (∀ b, (apply_l rt A addr args w).ret = some b →
      b = true ∧
      (rt.asserts_disabled = false →
        rt.types_are_compatible addr.type_ (rt.get_component_type A.component_type) = true)) ∧
    (∀ b, (apply_l_cont rt A c addr args w).ret = some b →
      b = true ∧
      (rt.asserts_disabled = false →
        rt.types_are_compatible addr.type_ (rt.get_component_type A.component_type)
          = true)) := by
  refine ⟨?_, ?_, ?_⟩
  · intro hd h
    simp [apply_l, apply_l_cont, BOOST_ASSERT, hd, h]
  · intro b hb
    rw [apply_l_ret] at hb
    split at hb
    · next h =>
      refine ⟨by simpa using hb.symm, fun hd => ?_⟩
      simpa [BOOST_ASSERT, hd] using h
    · simp at hb
  · intro b hb
    rw [apply_l_cont_ret] at hb
    split at hb
    · next h =>
      refine ⟨by simpa using hb.symm, fun hd => ?_⟩
      simpa [BOOST_ASSERT, hd] using h
    · simp at hb

/-- Witness for C4 (as amended): on the example runtime, built with assertions,
the action `Other`, declared on type 2, dispatched on an address of type 1,
and `Echo`, declared on type 1, on the same address. -/
theorem apply_l_assertion_witness :
    (apply_l rt0 Other ⟨1, 1007⟩ [(42 : Int)] [] = ⟨none, []⟩ ∧
      apply_l_cont rt0 Other (some (continuation.of_gid 9)) ⟨1, 1007⟩ [(42 : Int)] []
        = ⟨none, []⟩) ∧
    (true = true ∧
      (rt0.asserts_disabled = false →
        rt0.types_are_compatible (address.mk 1 1007).type_
          (rt0.get_component_type Echo.component_type) = true)) :=
  ⟨(apply_l_assertion rt0 Other (some (continuation.of_gid 9)) ⟨1, 1007⟩ [(42 : Int)] []).1
      (by decide) (by decide),
   (apply_l_assertion rt0 Echo none ⟨1, 1007⟩ [(42 : Int)] []).2.1 true (by decide)⟩

/-! ## The combinators `apply_c` -/

/-- C5: `apply_c<Action>(cont_target, dest, args...)`, for a continuation
target given as a GID or as a full address, has the result and the whole trace
of effects of the continuation-bearing `apply` called with a continuation
constructed for that target. -/
theorem apply_c_eq_apply_cont {α : Type} (rt : Runtime) (A : Action) (contgid : id_type)
    (contaddr : full_address) (gid : id_type) (args : List α) (w : List (Event α)) :
    apply_c_gid rt A contgid gid args w
      = apply_cont rt A (some (continuation.of_gid contgid)) gid args w ∧
    apply_c_fa rt A contaddr gid args w
      = apply_cont rt A (some (continuation.of_full_address contaddr)) gid args w :=
  ⟨rfl, rfl⟩

/-! ## `apply` on a full address -/

/-- C6 fails as stated: in a build with assertions compiled in, the locality
check reports the full address of GID 7 (type 1, handle 1007) local and the
resolver yields that same address for GID 7, and `apply<Other>(fa, 42)`, whose
action is declared on type 2, fails the assertion of `apply_l`: it does not
return and performs no local submission. -/
theorem apply_fa_counterexample :
    rt0.address_is_local_fa ⟨7, ⟨1, 1007⟩⟩ = true ∧
    rt0.address_is_local 7 = (true, ⟨1, 1007⟩) ∧
    (apply_fa rt0 Other ⟨7, ⟨1, 1007⟩⟩ [(42 : Int)] []).ret = none ∧
    submissions (apply_fa rt0 Other ⟨7, ⟨1, 1007⟩⟩ [(42 : Int)] []).trace = [] := by
  decide

/-- C6 (as amended): for a full address `fa` that the locality check reports
local, when resolving `fa`'s GID yields local with `fa`'s address,
`apply<Action>(fa, args...)` returns what `apply<Action>(gid, args...)` returns
and makes the same local submissions, and it resolves no GID; and when the
tag of that address is compatible with the action's component type, both
return `true` and both make exactly one local submission, on the handle of
`fa`'s address with `args` in order, the only other effect of `apply` on `fa`
being the locality check. -/
theorem apply_fa_agrees_local {α : Type} (rt : Runtime) (A : Action) (fa : full_address)
    (args : List α) (w : List (Event α))
    (hfa : rt.address_is_local_fa fa = true)
    (hres : rt.address_is_local fa.gid_ = (true, fa.address_)) :
    (apply_fa rt A fa args w).ret = (apply rt A fa.gid_ args w).ret ∧
    submissions (apply_fa rt A fa args w).trace
      = submissions (apply rt A fa.gid_ args w).trace ∧
    resolutions (apply_fa rt A fa args w).trace = resolutions w ∧
    (rt.types_are_compatible fa.address_.type_
        (rt.get_component_type A.component_type) = true →
      apply_fa rt A fa args w
        = ⟨some true, fa,
            w ++ [Event.locality_check fa, Event.call fa.address_.address_ A args]⟩ ∧
      apply rt A fa.gid_ args w
        = ⟨some true,
            w ++ [Event.resolve fa.gid_, Event.call fa.address_.address_ A args]⟩ ∧
      submissions (apply_fa rt A fa args w).trace
        = submissions w ++ [Event.call fa.address_.address_ A args] ∧
      submissions (apply rt A fa.gid_ args w).trace
        = submissions w ++ [Event.call fa.address_.address_ A args]) := by
  refine ⟨?_, ?_, ?_, ?_⟩
  · simp [apply_fa, apply, hfa, hres, apply_l_ret]
  · by_cases hc : BOOST_ASSERT rt (rt.types_are_compatible fa.address_.type_
        (rt.get_component_type A.component_type)) = true
    · simp [apply_fa, apply, apply_l, hfa, hres, hc, submissions_append, submissions,
        Event.is_submission]
    · simp [apply_fa, apply, apply_l, hfa, hres, hc, submissions_append, submissions,
        Event.is_submission]
  · by_cases hc : BOOST_ASSERT rt (rt.types_are_compatible fa.address_.type_
        (rt.get_component_type A.component_type)) = true
    · simp [apply_fa, apply_l, hfa, hc, resolutions_append, resolutions, Event.resolved?]
    · simp [apply_fa, apply_l, hfa, hc, resolutions_append, resolutions, Event.resolved?]
  · intro hc
    simp [apply_fa, apply, apply_l, BOOST_ASSERT, hfa, hres, hc, submissions_append,
      submissions, Event.is_submission]

/-- Witness for C6 (as amended): the full address of GID 7 on the example
runtime, with the action `Echo` declared on its component type. -/
theorem apply_fa_agrees_local_witness :
    rt0.address_is_local_fa ⟨7, ⟨1, 1007⟩⟩ = true ∧
    rt0.address_is_local 7 = (true, ⟨1, 1007⟩) ∧
    apply_fa rt0 Echo ⟨7, ⟨1, 1007⟩⟩ [(42 : Int)] []
      = ⟨some true, ⟨7, ⟨1, 1007⟩⟩,
          [] ++ [Event.locality_check ⟨7, ⟨1, 1007⟩⟩, Event.call 1007 Echo [42]]⟩ ∧
    resolutions (apply_fa rt0 Echo ⟨7, ⟨1, 1007⟩⟩ [(42 : Int)] []).trace
      = resolutions ([] : List (Event Int)) :=
  have h := apply_fa_agrees_local rt0 Echo ⟨7, ⟨1, 1007⟩⟩ [(42 : Int)] []
    (by decide) (by decide)
  ⟨by decide, by decide, (h.2.2.2 (by decide)).1, h.2.2.1⟩

/-! ## The remote dispatcher -/

/-- C7: `apply_r<Action>(addr, gid, args...)`, without and with a
continuation, returns `false` and caches into the one parcel it sends an
address with `addr`'s handle and with the action's declared component type as
tag when `addr`'s tag is `component_invalid`, `addr`'s own tag otherwise; the
caller's `addr` holds that same address after the call. -/
theorem apply_r_caches_address {α : Type} (rt : Runtime) (A : Action) (addr : address)
    (c : Option continuation) (gid : id_type) (args : List α) (w : List (Event α)) :
    apply_r rt A addr gid args w
      = { ret := some false,
          ref := ⟨if addr.type_ = rt.component_invalid
                    then rt.get_component_type A.component_type else addr.type_,
                  addr.address_⟩,
          trace := w ++ [Event.put_parcel ⟨gid, ⟨A, args⟩, none,
            some ⟨if addr.type_ = rt.component_invalid
                    then rt.get_component_type A.component_type else addr.type_,
                  addr.address_⟩⟩] } ∧
    apply_r_cont rt A addr c gid args w
      = { ret := some false,
          ref := ⟨if addr.type_ = rt.component_invalid
                    then rt.get_component_type A.component_type else addr.type_,
                  addr.address_⟩,
          trace := w ++ [Event.put_parcel ⟨gid, ⟨A, args⟩, c,
            some ⟨if addr.type_ = rt.component_invalid
                    then rt.get_component_type A.component_type else addr.type_,
                  addr.address_⟩⟩] } := by
  by_cases h : addr.type_ = rt.component_invalid
  · simp [apply_r, apply_r_cont, fill_type, parcel.mk2, parcel.mk3,
      parcel.set_destination_addr, h]
  · have h' : ¬ rt.component_invalid = addr.type_ := fun e => h e.symm
    simp [apply_r, apply_r_cont, fill_type, parcel.mk2, parcel.mk3,
      parcel.set_destination_addr, h, h']

/-! ## The address cached in a parcel -/

/-- C8 fails as stated: the resolver yields the address (type 1, handle 150)
for GID 150, and the parcels that the address-taking `apply_c` and `apply` on
a full address send to GID 150 cache the caller's address (type 1, handle 5);
and the resolver yields an unset tag for GID 250, while the parcel that
`apply` sends to GID 250 caches the tag of the action's component type. -/
theorem parcel_address_counterexample :
    rt0.address_is_local 150 = (false, ⟨1, 150⟩) ∧
    parcels (apply_c_addr_gid rt0 Echo ⟨1, 5⟩ 9 150 [(42 : Int)] []).trace
      = [⟨150, ⟨Echo, [42]⟩, some (continuation.of_gid 9), some ⟨1, 5⟩⟩] ∧
    rt0.address_is_local_fa ⟨150, ⟨1, 5⟩⟩ = false ∧
    parcels (apply_fa rt0 Echo ⟨150, ⟨1, 5⟩⟩ [(42 : Int)] []).trace
      = [⟨150, ⟨Echo, [42]⟩, none, some ⟨1, 5⟩⟩] ∧
    rt0.address_is_local 250 = (false, ⟨-1, 250⟩) ∧
    parcels (apply rt0 Echo 250 [(42 : Int)] []).trace
      = [⟨250, ⟨Echo, [42]⟩, none, some ⟨1, 250⟩⟩] := by
  decide

/-- C8 (as amended): a parcel sent by `apply` on a GID, without or with a
continuation (so also by `apply_c` on a continuation target and a GID), caches
the address the resolver yielded for its destination GID in that call, with an
unset tag replaced by the action's component type; a parcel sent by `apply`
on a full address or by the address-taking `apply_c` caches, with the same
replacement, the address the caller supplied. -/
theorem parcel_address_origin {α : Type} (rt : Runtime) (A : Action)
    (c : Option continuation) (gid : id_type) (fa : full_address) (addr : address)
    (contgid : id_type) (contaddr : full_address) (args : List α) (w : List (Event α)) :
    parcels (apply rt A gid args w).trace
      = parcels w ++ (if (rt.address_is_local gid).1 then []
          else [⟨gid, ⟨A, args⟩, none, some (fill_type rt A (rt.address_is_local gid).2)⟩]) ∧
    parcels (apply_cont rt A c gid args w).trace
      = parcels w ++ (if (rt.address_is_local gid).1 then []
          else [⟨gid, ⟨A, args⟩, c, some (fill_type rt A (rt.address_is_local gid).2)⟩]) ∧
    parcels (apply_fa rt A fa args w).trace
      = parcels w ++ (if rt.address_is_local_fa fa then []
          else [⟨fa.gid_, ⟨A, args⟩, none, some (fill_type rt A fa.address_)⟩]) ∧
    parcels (apply_cont_fa rt A c fa args w).trace
      = parcels w ++ (if rt.address_is_local_fa fa then []
          else [⟨fa.gid_, ⟨A, args⟩, c, some (fill_type rt A fa.address_)⟩]) ∧
    parcels (apply_c_addr_gid rt A addr contgid gid args w).trace
      = parcels w ++ [⟨gid, ⟨A, args⟩, some (continuation.of_gid contgid),
          some (fill_type rt A addr)⟩] ∧
    parcels (apply_c_addr_fa rt A addr contaddr gid args w).trace
      = parcels w ++ [⟨gid, ⟨A, args⟩, some (continuation.of_full_address contaddr),
          some (fill_type rt A addr)⟩] ∧
    (∀ a : address, (fill_type rt A a).address_ = a.address_ ∧
      (fill_type rt A a).type_
        = if a.type_ = rt.component_invalid then rt.get_component_type A.component_type
          else a.type_) := by
  refine ⟨?_, ?_, ?_, ?_, ?_, ?_, ?_⟩
  · unfold apply apply_l apply_r
    rcases rt.address_is_local gid with ⟨b, a⟩
    cases b <;> simp [parcels, Event.parcel?, parcel.mk2, parcel.set_destination_addr]
    split <;> simp [Event.parcel?]
  · unfold apply_cont apply_l_cont apply_r_cont
    rcases rt.address_is_local gid with ⟨b, a⟩
    cases b <;> simp [parcels, Event.parcel?, parcel.mk3, parcel.set_destination_addr]
    split <;> simp [Event.parcel?]
  · unfold apply_fa apply_l apply_r
    cases rt.address_is_local_fa fa <;>
      simp [parcels, Event.parcel?, parcel.mk2, parcel.set_destination_addr]
    split <;> simp [Event.parcel?]
  · unfold apply_cont_fa apply_l_cont apply_r_cont
    cases rt.address_is_local_fa fa <;>
      simp [parcels, Event.parcel?, parcel.mk3, parcel.set_destination_addr]
    split <;> simp [Event.parcel?]
  · simp [apply_c_addr_gid, apply_r_cont, parcels, Event.parcel?, parcel.mk3,
      parcel.set_destination_addr]
  · simp [apply_c_addr_fa, apply_r_cont, parcels, Event.parcel?, parcel.mk3,
      parcel.set_destination_addr]
  · intro a
    unfold fill_type
    by_cases h : a.type_ = rt.component_invalid
    · simp [h]
    · have h' : ¬ rt.component_invalid = a.type_ := fun e => h e.symm
      simp [h, h']

/-! ## The address-taking combinators -/

/-- C10 fails as stated: the resolver reports GID 7 local, the
continuation-bearing `apply` submits the call locally and returns `true`, and
the address-taking `apply_c` on the same destination returns `false`, submits
nothing and hands a parcel to the transport. -/
theorem apply_c_addr_counterexample :
    rt0.address_is_local 7 = (true, ⟨1, 1007⟩) ∧
    apply_cont rt0 Echo (some (continuation.of_gid 9)) 7 [(42 : Int)] []
      = ⟨some true, [Event.resolve 7,
          Event.call_cont (some (continuation.of_gid 9)) 1007 Echo [42]]⟩ ∧
    apply_c_addr_gid rt0 Echo ⟨1, 1007⟩ 9 7 [(42 : Int)] []
      = ⟨some false, ⟨1, 1007⟩,
          [Event.put_parcel ⟨7, ⟨Echo, [42]⟩, some (continuation.of_gid 9), some ⟨1, 1007⟩⟩]⟩ ∧
    (apply_c_addr_gid rt0 Echo ⟨1, 1007⟩ 9 7 [(42 : Int)] []).ret
      ≠ (apply_cont rt0 Echo (some (continuation.of_gid 9)) 7 [(42 : Int)] []).ret := by
  decide

/-- C10 (as amended): the address-taking `apply_c<Action>(addr, cont_target,
gid, args...)` constructs a continuation for `cont_target` and delegates to
the remote dispatcher `apply_r`: whatever the resolver reports for `gid`, it
returns `false` and its only effect is to hand the transport one parcel for
`gid` that carries the continuation and caches `addr` (tag filled in); and
when the resolver reports `gid` non-local with the address `addr`, the
returned value and the parcel are those of the continuation-bearing `apply`. -/
theorem apply_c_addr_delegates {α : Type} (rt : Runtime) (A : Action) (addr : address)
    (contgid : id_type) (contaddr : full_address) (gid : id_type) (args : List α)
    (w : List (Event α)) :
    apply_c_addr_gid rt A addr contgid gid args w
      = ⟨some false, fill_type rt A addr,
          w ++ [Event.put_parcel ⟨gid, ⟨A, args⟩, some (continuation.of_gid contgid),
            some (fill_type rt A addr)⟩]⟩ ∧
    apply_c_addr_fa rt A addr contaddr gid args w
      = ⟨some false, fill_type rt A addr,
          w ++ [Event.put_parcel ⟨gid, ⟨A, args⟩, some (continuation.of_full_address contaddr),
            some (fill_type rt A addr)⟩]⟩ ∧
    (rt.address_is_local gid = (false, addr) →
      (apply_c_addr_gid rt A addr contgid gid args w).ret
        = (apply_cont rt A (some (continuation.of_gid contgid)) gid args w).ret ∧
      parcels (apply_c_addr_gid rt A addr contgid gid args w).trace
        = parcels (apply_cont rt A (some (continuation.of_gid contgid)) gid args w).trace ∧
      (apply_c_addr_fa rt A addr contaddr gid args w).ret
        = (apply_cont rt A (some (continuation.of_full_address contaddr)) gid args w).ret ∧
      parcels (apply_c_addr_fa rt A addr contaddr gid args w).trace
        = parcels (apply_cont rt A (some (continuation.of_full_address contaddr))
            gid args w).trace) := by
  refine ⟨?_, ?_, ?_⟩
  · simp [apply_c_addr_gid, apply_r_cont, parcel.mk3, parcel.set_destination_addr]
  · simp [apply_c_addr_fa, apply_r_cont, parcel.mk3, parcel.set_destination_addr]
  · intro h
    simp [apply_c_addr_gid, apply_c_addr_fa, apply_cont, apply_r_cont, h, parcel.mk3,
      parcel.set_destination_addr, parcels, Event.parcel?]

/-- Witness for C10 (as amended): the remote GID 150 with its resolved
address, on the example runtime. -/
theorem apply_c_addr_delegates_witness :
    rt0.address_is_local 150 = (false, ⟨1, 150⟩) ∧
    (apply_c_addr_gid rt0 Echo ⟨1, 150⟩ 9 150 [(42 : Int)] []).ret
      = (apply_cont rt0 Echo (some (continuation.of_gid 9)) 150 [(42 : Int)] []).ret ∧
    parcels (apply_c_addr_gid rt0 Echo ⟨1, 150⟩ 9 150 [(42 : Int)] []).trace
      = parcels (apply_cont rt0 Echo (some (continuation.of_gid 9)) 150 [(42 : Int)] []).trace :=
  have h := (apply_c_addr_delegates rt0 Echo ⟨1, 150⟩ 9 ⟨9, ⟨1, 1009⟩⟩ 150 [(42 : Int)] []).2.2
    (by decide)
  ⟨by decide, h.1, h.2.1⟩

/-! ## Arities -/

end applier

end hpx
